import Mathlib

set_option linter.unusedVariables false

/-!
Shallow embedding of the waSCC native-capability host core: the invocation
value types, the middleware chain of `src/middleware/mod.rs`, the outbound
dispatcher of `src/dispatch.rs`, and the host facade plus provider worker
loop of `src/native_host.rs`. Components of the repository whose sources are
not provided (`inthost.rs`, `router.rs`, `plugins.rs`, `extras.rs`) are
modelled from the specification, as marked on each definition.
-/

/-- Modelled from the spec: `InvocationTarget` lives in `inthost.rs`, which is
not among the provided sources. A tagged variant addressing either an actor by
id or a capability by capability id and binding. -/
inductive InvocationTarget where
  | actor (actorId : String)
  | capability (capid : String) (binding : String)
  deriving DecidableEq

/-- Modelled from the spec: `Invocation` lives in `inthost.rs`, which is not
among the provided sources. The immutable request envelope; payload bytes are
represented as `Nat` values. -/
structure Invocation where
  origin : String
  target : InvocationTarget
  operation : String
  msg : List Nat
  id : Nat
  deriving DecidableEq

/-- Modelled from the spec: `Invocation::new` in `inthost.rs`. The `id` field
is a monotonically generated identifier used only for logging and correlation,
never for matching; its generation is stateful and irrelevant to the claims,
so it is fixed at zero here. -/
def Invocation.new (origin : String) (target : InvocationTarget)
    (op : String) (msg : List Nat) : Invocation :=
  { origin := origin, target := target, operation := op, msg := msg, id := 0 }

/-- Modelled from the spec: `InvocationResponse` in `inthost.rs`; `error` is
set exactly when the invocation failed. -/
structure InvocationResponse where
  invocation_id : Nat
  msg : List Nat
  error : Option String
  deriving DecidableEq

/-- Modelled from the spec: `InvocationResponse::success` in `inthost.rs`. -/
def InvocationResponse.success (inv : Invocation) (msg : List Nat) :
    InvocationResponse :=
  { invocation_id := inv.id, msg := msg, error := none }

/-- Modelled from the spec: `InvocationResponse::error` in `inthost.rs`, named
`mkError` here because `error` is taken by the field projection. The carried
error is its rendered string. -/
def InvocationResponse.mkError (inv : Invocation) (e : String) :
    InvocationResponse :=
  { invocation_id := inv.id, msg := [], error := some e }

/-- A middleware, from the `Middleware` trait of `src/middleware/mod.rs`: four
hooks, each able to transform the value or fail. Hook failures are rendered as
strings. -/
structure Middleware where
  actor_pre_invoke : Invocation → Except String Invocation
  actor_post_invoke : InvocationResponse → Except String InvocationResponse
  capability_pre_invoke : Invocation → Except String Invocation
  capability_post_invoke : InvocationResponse → Except String InvocationResponse

/-- From `run_capability_pre_invoke` in `src/middleware/mod.rs`: fold the
`capability_pre_invoke` hooks over the chain in list order, threading each
output into the next hook and short-circuiting on the first error. -/
def run_capability_pre_invoke (inv : Invocation)
    (middlewares : List Middleware) : Except String Invocation :=
  match middlewares with
  | [] => Except.ok inv
  | m :: rest =>
    match m.capability_pre_invoke inv with
    | Except.ok i => run_capability_pre_invoke i rest
    | Except.error e => Except.error e

/-- From `run_capability_post_invoke` in `src/middleware/mod.rs`: same forward
fold over the `capability_post_invoke` hooks. -/
def run_capability_post_invoke (resp : InvocationResponse)
    (middlewares : List Middleware) : Except String InvocationResponse :=
  match middlewares with
  | [] => Except.ok resp
  | m :: rest =>
    match m.capability_post_invoke resp with
    | Except.ok r => run_capability_post_invoke r rest
    | Except.error e => Except.error e

/-- From `run_actor_pre_invoke` in `src/middleware/mod.rs`. -/
def run_actor_pre_invoke (inv : Invocation)
    (middlewares : List Middleware) : Except String Invocation :=
  match middlewares with
  | [] => Except.ok inv
  | m :: rest =>
    match m.actor_pre_invoke inv with
    | Except.ok i => run_actor_pre_invoke i rest
    | Except.error e => Except.error e

/-- From `run_actor_post_invoke` in `src/middleware/mod.rs`. -/
def run_actor_post_invoke (resp : InvocationResponse)
    (middlewares : List Middleware) : Except String InvocationResponse :=
  match middlewares with
  | [] => Except.ok resp
  | m :: rest =>
    match m.actor_post_invoke resp with
    | Except.ok r => run_actor_post_invoke r rest
    | Except.error e => Except.error e

/-- The pre-invoke step of `invoke_capability` in `src/middleware/mod.rs`: a
chain error is only logged and the untransformed invocation is used. -/
def capability_pre_result (middlewares : List Middleware)
    (inv : Invocation) : Invocation :=
  match run_capability_pre_invoke inv middlewares with
  | Except.ok i => i
  | Except.error _ => inv

/-- The plugin-call step of `invoke_capability` in `src/middleware/mod.rs`.
The call `plugins.call(router, inv)` resolves the provider and runs its native
entry point; `PluginManager` is outside the provided sources, so that call is
abstracted as the function argument `pc`. As in the source, a call error
becomes an error response on the invocation. -/
def pluginResponse (pc : Invocation → Except String InvocationResponse)
    (inv : Invocation) : InvocationResponse :=
  match pc inv with
  | Except.ok r => r
  | Except.error e => InvocationResponse.mkError inv e

/-- From `invoke_capability` in `src/middleware/mod.rs`: pre-invoke chain with
fallback to the original invocation, plugin call, post-invoke chain whose
error falls back to the untransformed response. Every branch returns `ok`. -/
def invoke_capability (middlewares : List Middleware)
    (pc : Invocation → Except String InvocationResponse)
    (inv : Invocation) : Except String InvocationResponse :=
  match run_capability_post_invoke
      (pluginResponse pc (capability_pre_result middlewares inv)) middlewares with
  | Except.ok r' => Except.ok r'
  | Except.error _ =>
      Except.ok (pluginResponse pc (capability_pre_result middlewares inv))

/-- Modelled from the spec and `src/errors.rs`: a guest-call failure is
wrapped in the waPC general error kind (`ErrorKind::Wapc`) before being stored
in the response; `InvocationResponse::error` lives in the missing `inthost.rs`
and stores the rendered string, whose exact shape is opaque to the claims. -/
def wapcErrorString (e : String) : String :=
  "waPC failure: " ++ e

/-- The pre-invoke step of `invoke_actor` in `src/middleware/mod.rs`: a chain
error is only logged and the untransformed invocation is used. -/
def actor_pre_result (middlewares : List Middleware)
    (inv : Invocation) : Invocation :=
  match run_actor_pre_invoke inv middlewares with
  | Except.ok i => i
  | Except.error _ => inv

/-- The guest-call step of `invoke_actor` in `src/middleware/mod.rs`: call
`guest.call(operation, msg)` on the pre-invoke result, wrapping success as a
success response and a guest error as an error response. The external guest
is abstracted as the function argument `g`. -/
def actor_guest_response (middlewares : List Middleware) (inv : Invocation)
    (g : String → List Nat → Except String (List Nat)) : InvocationResponse :=
  match g (actor_pre_result middlewares inv).operation
      (actor_pre_result middlewares inv).msg with
  | Except.ok v => InvocationResponse.success (actor_pre_result middlewares inv) v
  | Except.error e =>
      InvocationResponse.mkError (actor_pre_result middlewares inv)
        (wapcErrorString e)

/-- From `invoke_actor` in `src/middleware/mod.rs`: pre-invoke chain with
fallback, guest call wrapped as a response, post-invoke chain whose error
falls back to the untransformed response. Every branch returns `ok`. -/
def invoke_actor (middlewares : List Middleware) (inv : Invocation)
    (g : String → List Nat → Except String (List Nat)) :
    Except String InvocationResponse :=
  match run_actor_post_invoke (actor_guest_response middlewares inv g)
      middlewares with
  | Except.ok r => Except.ok r
  | Except.error _ => Except.ok (actor_guest_response middlewares inv g)

/-- Error codes of the external `tea_codec` taxonomy that the embedded
functions construct, plus the conceptual duplicate-plugin registration error
of the specification. -/
inductive TeaErrorCode where
  | channelSendError
  | channelReceiveError
  | invocationError
  | capabilityProviderError
  | duplicatePlugin
  deriving DecidableEq

/-- An error of the external `tea_codec` shape used by this host: a code plus
an optional rendered detail string. -/
structure TeaError where
  code : TeaErrorCode
  detail : Option String
  deriving DecidableEq

/-- Modelled from the spec: the router of `router.rs` (not among the provided
sources) maps `(binding, capability id)` keys to per-provider channel
endpoints. For the claims only key presence is observable, so an entry is
represented by `Unit`. -/
structure Router where
  routes : List (String × String)
  deriving DecidableEq

/-- Modelled from the spec: `Router::route_exists`. -/
def Router.route_exists (r : Router) (binding capid : String) : Bool :=
  r.routes.contains (binding, capid)

/-- Modelled from the spec: `Router::add_route` inserts the key; the call site
in `src/native_host.rs` ignores its result. -/
def Router.add_route (r : Router) (binding capid : String) : Router :=
  { routes := (binding, capid) :: r.routes }

/-- Modelled from the spec: `Router::get_route` returns cloned channel handles
when the key is present. -/
def Router.get_route (r : Router) (binding capid : String) : Option Unit :=
  if r.routes.contains (binding, capid) then some () else none

/-- Modelled from the spec: the plugin manager of `plugins.rs` (not among the
provided sources) owns one provider instance per `(binding, capability id)`
key; for the claims only the key set is observable. -/
structure PluginManager where
  plugins : List (String × String)
  deriving DecidableEq

/-- Modelled from the spec: `CapabilityDescriptor` is provider metadata,
opaque to the core except for its `id` field. -/
structure CapabilityDescriptor where
  id : String
  deriving DecidableEq

/-- Modelled from the spec: `NativeCapability` (outside the provided sources)
carries the provider descriptor and the binding name. -/
structure NativeCapability where
  binding_name : String
  descriptor : CapabilityDescriptor
  deriving DecidableEq

/-- Modelled from the spec: `NativeCapability::id()` returns the descriptor
id. -/
def NativeCapability.id (c : NativeCapability) : String :=
  c.descriptor.id

/-- Modelled from the spec: `PluginManager::add_plugin` fails with a
duplicate-plugin error when the `(binding, capability id)` key is already
present, and otherwise records the provider. -/
def PluginManager.add_plugin (pm : PluginManager) (cap : NativeCapability) :
    Except TeaError PluginManager :=
  if pm.plugins.contains (cap.binding_name, NativeCapability.id cap) then
    Except.error
      { code := TeaErrorCode.duplicatePlugin,
        detail := some (cap.binding_name ++ "," ++ NativeCapability.id cap) }
  else
    Except.ok
      { plugins := (cap.binding_name, NativeCapability.id cap) :: pm.plugins }

/-- The host facade state of `NativeHost` in `src/native_host.rs`: plugin
manager, router, middleware chain and the `caps` descriptor map. The map is an
association list whose first match wins, observably equal to the hash map of
the source for the claims considered. -/
structure NativeHost where
  plugins : PluginManager
  router : Router
  middlewares : List Middleware
  caps : List ((String × String) × CapabilityDescriptor)

/-- From `spawn_capability_provider_and_listen` in `src/native_host.rs`,
restricted to its registration-time effects: `add_plugin` runs first and its
error aborts the call; on success the spawned worker thread registers the
dispatcher and inserts the route before dropping the wait group, so both
effects are visible once `add_native_capability` returns. The returned pair
carries the final observable state alongside the result, mirroring in-place
mutation of the shared maps. -/
def NativeHost.spawn_capability_provider_and_listen (host : NativeHost)
    (cap : NativeCapability) : Except TeaError Unit × NativeHost :=
  match host.plugins.add_plugin cap with
  | Except.error e => (Except.error e, host)
  | Except.ok pm =>
    (Except.ok (),
      { host with
          plugins := pm,
          router := host.router.add_route cap.binding_name
            (NativeCapability.id cap) })

/-- From `NativeHost::add_native_capability` in `src/native_host.rs`: reject a
duplicate route with a capability-provider error naming the capability id and
the binding, otherwise insert the descriptor into `caps` and then spawn the
provider worker; a spawn failure is returned without rolling the `caps`
insertion back. -/
def NativeHost.add_native_capability (host : NativeHost)
    (cap : NativeCapability) : Except TeaError Unit × NativeHost :=
  if host.router.route_exists cap.binding_name (NativeCapability.id cap) then
    (Except.error
      { code := TeaErrorCode.capabilityProviderError,
        detail := some ("Capability provider " ++ NativeCapability.id cap ++
          " cannot be bound to the same name (" ++ cap.binding_name ++
          ") twice, loading failed.") }, host)
  else
    NativeHost.spawn_capability_provider_and_listen
      { host with caps :=
          ((cap.binding_name, cap.descriptor.id), cap.descriptor) :: host.caps }
      cap

/-- Modelled from the spec: the built-in extras provider constructed by
`NativeCapability::from_instance(ExtrasCapabilityProvider::default(), None)`
in the missing `extras.rs`; a `None` binding selects the default binding and
the descriptor id is `"wascc:extras"`. -/
def extrasCapability : NativeCapability :=
  { binding_name := "default", descriptor := { id := "wascc:extras" } }

/-- From `NativeHost::ensure_extras` in `src/native_host.rs`: register the
extras provider unless its route already exists. -/
def NativeHost.ensure_extras (host : NativeHost) :
    Except TeaError Unit × NativeHost :=
  if (host.router.get_route "default" "wascc:extras").isSome then
    (Except.ok (), host)
  else
    NativeHost.add_native_capability host extrasCapability

/-- The struct literal built inside `NativeHost::new` in
`src/native_host.rs`: empty router, plugin manager, middleware chain and caps
map, before the extras provider is registered. -/
def NativeHost.initialState : NativeHost :=
  { plugins := { plugins := [] }, router := { routes := [] },
    middlewares := [], caps := [] }

/-- From `NativeHost::new` in `src/native_host.rs`: build the empty state and
run `ensure_extras` on it (whose result is unwrapped; its success on the empty
state is proved below). -/
def NativeHost.new : NativeHost :=
  (NativeHost.ensure_extras NativeHost.initialState).2

/-- From `WasccNativeDispatcher` in `src/dispatch.rs`. The crossbeam channel
endpoints are abstracted by the observable outcome of the single send and the
single receive a `dispatch` call performs: `invoc_s` gives the send result for
a given invocation and `resp_r` the received response, an `error` standing for
a closed channel whose rendered cause is the carried string. -/
structure WasccNativeDispatcher where
  resp_r : Except String InvocationResponse
  invoc_s : Invocation → Except String Unit
  capid : String

/-- From `WasccNativeDispatcher::dispatch` in `src/dispatch.rs`: build the
invocation from the own capability id and the actor target, send it, receive
one response, and map its `error` field to an invocation error. -/
def WasccNativeDispatcher.dispatch (d : WasccNativeDispatcher)
    (actor op : String) (msg : List Nat) : Except TeaError (List Nat) :=
  let inv := Invocation.new d.capid (InvocationTarget.actor actor) op msg
  match d.invoc_s inv with
  | Except.error e =>
      Except.error { code := TeaErrorCode.channelSendError, detail := some e }
  | Except.ok _ =>
    match d.resp_r with
    | Except.ok r =>
      match r.error with
      | some s =>
          Except.error { code := TeaErrorCode.invocationError, detail := some s }
      | none => Except.ok r.msg
    | Except.error e =>
        Except.error
          { code := TeaErrorCode.channelReceiveError, detail := some e }

/-- The per-invocation body of the worker select loop in
`spawn_capability_provider_and_listen` (`src/native_host.rs`): a capability
target goes through `invoke_capability` (whose result the source unwraps; the
fallback branch here is unreachable because `invoke_capability` always returns
`ok`), and an actor target is answered with the fixed error response without
touching the plugin. -/
def worker_handle_invocation (middlewares : List Middleware)
    (pc : Invocation → Except String InvocationResponse)
    (inv : Invocation) : InvocationResponse :=
  match inv.target with
  | InvocationTarget.capability _ _ =>
    match invoke_capability middlewares pc inv with
    | Except.ok r => r
    | Except.error e => InvocationResponse.mkError inv e
  | InvocationTarget.actor _ =>
      InvocationResponse.mkError inv "invocation target of native host can't be actor"

/-- One wake-up of the worker select loop: either the invocation channel
delivered a receive result, or the terminate channel fired (a message or its
closure, which the source treats alike). -/
inductive LoopEvent where
  | invocation (received : Except String Invocation)
  | terminate

/-- The observable outcome of one iteration of the worker select loop. -/
inductive LoopOutcome where
  | continueLoop (sent : Option InvocationResponse)
  | exitLoop
  | panicked
  deriving DecidableEq

/-- One iteration of the worker select loop in
`spawn_capability_provider_and_listen` (`src/native_host.rs`). A receive
failure on the invocation channel fails the `if let Ok` guard, so the body is
skipped and the loop continues. A received invocation is handled and the
response is sent with `.unwrap()`: `respSendOk` tells whether the response
receiver is still alive; when it is not, the unwrap panics. The terminate
branch removes the capability, the route and the plugin, then breaks. -/
def worker_loop_step (middlewares : List Middleware)
    (pc : Invocation → Except String InvocationResponse)
    (respSendOk : Bool) (ev : LoopEvent) : LoopOutcome :=
  match ev with
  | LoopEvent.invocation (Except.error _) => LoopOutcome.continueLoop none
  | LoopEvent.invocation (Except.ok inv) =>
    if respSendOk then
      LoopOutcome.continueLoop (some (worker_handle_invocation middlewares pc inv))
    else LoopOutcome.panicked
  | LoopEvent.terminate => LoopOutcome.exitLoop

/-- One provider-originated round trip, composing `dispatch` with the worker
loop that serves the paired channels: the send succeeds and the response
received is exactly the reply the worker writes for the invocation `dispatch`
builds. -/
def dispatch_via_worker (middlewares : List Middleware)
    (pc : Invocation → Except String InvocationResponse)
    (capid actor op : String) (msg : List Nat) : Except TeaError (List Nat) :=
  WasccNativeDispatcher.dispatch
    { resp_r := Except.ok (worker_handle_invocation middlewares pc
        (Invocation.new capid (InvocationTarget.actor actor) op msg)),
      invoc_s := fun _ => Except.ok (),
      capid := capid }
    actor op msg

/-- An echoing plugin call, used as a concrete instantiation in witnesses. -/
def pcEcho : Invocation → Except String InvocationResponse :=
  fun inv => Except.ok (InvocationResponse.success inv inv.msg)

/-- A middleware whose four hooks all fail, used in witnesses. -/
def failMW : Middleware :=
  { actor_pre_invoke := fun _ => Except.error "boom",
    actor_post_invoke := fun _ => Except.error "boom",
    capability_pre_invoke := fun _ => Except.error "boom",
    capability_post_invoke := fun _ => Except.error "boom" }

/-- A concrete capability-target invocation, used in witnesses. -/
def invCap : Invocation :=
  Invocation.new "system" (InvocationTarget.capability "tea:echo" "default")
    "echo" [1, 2, 3]

/-- A concrete capability registration, used in witnesses. -/
def echoCap : NativeCapability :=
  { binding_name := "default", descriptor := { id := "tea:echo" } }

/-- A host whose router already routes the echo capability, used in
witnesses. -/
def hostDup : NativeHost :=
  { plugins := { plugins := [] },
    router := { routes := [("default", "tea:echo")] },
    middlewares := [], caps := [] }

/-- A host whose plugin manager already owns the echo key while its router
does not, so spawning fails after the caps insertion; used in witnesses. -/
def hostPluginBusy : NativeHost :=
  { plugins := { plugins := [("default", "tea:echo")] },
    router := { routes := [] },
    middlewares := [], caps := [] }

/-- The duplicate-plugin error produced for `echoCap` on `hostPluginBusy`. -/
def dupErr : TeaError :=
  { code := TeaErrorCode.duplicatePlugin, detail := some "default,tea:echo" }

/-- A concrete successful response, used in witnesses. -/
def respOkW : InvocationResponse :=
  { invocation_id := 0, msg := [7, 8], error := none }

/-- A dispatcher whose send succeeds and whose receive yields `respOkW`, used
in witnesses. -/
def dispW : WasccNativeDispatcher :=
  { resp_r := Except.ok respOkW, invoc_s := fun _ => Except.ok (),
    capid := "tea:kv" }

/-- A guest whose call always fails, used in witnesses. -/
def gFail : String → List Nat → Except String (List Nat) :=
  fun _ _ => Except.error "guest blew up"

/-- Helper: the capability pre-invoke chain over a two-element list is the
bind of the first hook into the second. -/
theorem run_capability_pre_invoke_pair (A B : Middleware) (inv : Invocation) :
    run_capability_pre_invoke inv [A, B]
      = Except.bind (A.capability_pre_invoke inv) B.capability_pre_invoke := by
  cases hA : A.capability_pre_invoke inv with
  | ok i =>
    cases hB : B.capability_pre_invoke i with
    | ok j => simp [run_capability_pre_invoke, hA, hB, Except.bind]
    | error e => simp [run_capability_pre_invoke, hA, hB, Except.bind]
  | error e => simp [run_capability_pre_invoke, hA, Except.bind]

/-- Helper: the capability post-invoke chain over a two-element list is the
bind of the first hook into the second. -/
theorem run_capability_post_invoke_pair (A B : Middleware)
    (resp : InvocationResponse) :
    run_capability_post_invoke resp [A, B]
      = Except.bind (A.capability_post_invoke resp) B.capability_post_invoke := by
  cases hA : A.capability_post_invoke resp with
  | ok r =>
    cases hB : B.capability_post_invoke r with
    | ok r2 => simp [run_capability_post_invoke, hA, hB, Except.bind]
    | error e => simp [run_capability_post_invoke, hA, hB, Except.bind]
  | error e => simp [run_capability_post_invoke, hA, Except.bind]

/-- C1: middleware failures around a capability invocation are non-fatal. A
failing `capability_pre_invoke` chain leaves the invocation untransformed, so
the plugin call proceeds on the original invocation; a failing
`capability_post_invoke` chain makes `invoke_capability` return `ok` with the
untransformed response produced before the post chain; and `invoke_capability`
always returns `ok`, so a middleware error is never surfaced to the caller. -/
theorem invoke_capability_middleware_nonfatal (mws : List Middleware)
    (pc : Invocation → Except String InvocationResponse) (inv : Invocation) :
    (∀ e, run_capability_pre_invoke inv mws = Except.error e →
      capability_pre_result mws inv = inv)
  ∧ (∀ e, run_capability_post_invoke
        (pluginResponse pc (capability_pre_result mws inv)) mws
        = Except.error e →
      invoke_capability mws pc inv
        = Except.ok (pluginResponse pc (capability_pre_result mws inv)))
  ∧ (∃ r, invoke_capability mws pc inv = Except.ok r) := by
  refine ⟨?_, ?_, ?_⟩
  · intro e h
    simp [capability_pre_result, h]
  · intro e h
    unfold invoke_capability
    rw [h]
  · cases h : run_capability_post_invoke
      (pluginResponse pc (capability_pre_result mws inv)) mws with
    | ok r => exact ⟨r, by unfold invoke_capability; rw [h]⟩
    | error e => exact ⟨_, by unfold invoke_capability; rw [h]⟩

/-- C1 witness: a middleware whose hooks always fail still lets the invocation
complete on the untransformed values. -/
theorem invoke_capability_middleware_nonfatal_witness :
    run_capability_pre_invoke invCap [failMW] = Except.error "boom"
  ∧ run_capability_post_invoke
      (pluginResponse pcEcho (capability_pre_result [failMW] invCap)) [failMW]
      = Except.error "boom"
  ∧ capability_pre_result [failMW] invCap = invCap
  ∧ invoke_capability [failMW] pcEcho invCap
      = Except.ok (pluginResponse pcEcho (capability_pre_result [failMW] invCap)) := by
  have h := invoke_capability_middleware_nonfatal [failMW] pcEcho invCap
  exact ⟨rfl, rfl, h.1 "boom" rfl, h.2.1 "boom" rfl⟩

/-- C2 counterexample: a receive failure on the invocation channel makes the
worker skip the body and continue looping rather than exit, and a failing send
of the response makes the worker panic through `unwrap`, contradicting the
claim that any send or receive failure is logged and exits the loop and that
the worker never panics. -/
theorem worker_loop_failure_counterexample :
    worker_loop_step [] pcEcho true (LoopEvent.invocation (Except.error "disconnected"))
      = LoopOutcome.continueLoop none
  ∧ worker_loop_step [] pcEcho true (LoopEvent.invocation (Except.error "disconnected"))
      ≠ LoopOutcome.exitLoop
  ∧ worker_loop_step [] pcEcho false (LoopEvent.invocation (Except.ok invCap))
      = LoopOutcome.panicked := by
  refine ⟨rfl, ?_, rfl⟩
  intro h
  simp [worker_loop_step] at h

/-- C2 amended: one iteration of the worker select loop continues silently
(sending nothing) on an invocation-channel receive failure, answers a received
invocation and continues when the response send succeeds, panics through
`unwrap` when the response receiver is gone, and exits the loop only on the
terminate branch. -/
theorem worker_loop_step_characterization (mws : List Middleware)
    (pc : Invocation → Except String InvocationResponse) :
    (∀ b e, worker_loop_step mws pc b (LoopEvent.invocation (Except.error e))
      = LoopOutcome.continueLoop none)
  ∧ (∀ inv, worker_loop_step mws pc true (LoopEvent.invocation (Except.ok inv))
      = LoopOutcome.continueLoop (some (worker_handle_invocation mws pc inv)))
  ∧ (∀ inv, worker_loop_step mws pc false (LoopEvent.invocation (Except.ok inv))
      = LoopOutcome.panicked)
  ∧ (∀ b, worker_loop_step mws pc b LoopEvent.terminate = LoopOutcome.exitLoop) := by
  exact ⟨fun b e => rfl, fun inv => rfl, fun inv => rfl, fun b => rfl⟩

/-- C3: the worker never hands an actor-target invocation to the plugin; it
answers it with an error response whose error is exactly the documented
string, independently of the plugin call function. -/
theorem worker_actor_target_rejected (mws : List Middleware)
    (pc pc' : Invocation → Except String InvocationResponse)
    (origin a op : String) (m : List Nat) (n : Nat) :
    worker_handle_invocation mws pc ⟨origin, InvocationTarget.actor a, op, m, n⟩
      = InvocationResponse.mkError ⟨origin, InvocationTarget.actor a, op, m, n⟩
          "invocation target of native host can't be actor"
  ∧ (worker_handle_invocation mws pc
      ⟨origin, InvocationTarget.actor a, op, m, n⟩).error
      = some "invocation target of native host can't be actor"
  ∧ worker_handle_invocation mws pc ⟨origin, InvocationTarget.actor a, op, m, n⟩
      = worker_handle_invocation mws pc' ⟨origin, InvocationTarget.actor a, op, m, n⟩ := by
  exact ⟨rfl, rfl, rfl⟩

/-- C4: the middleware chain runs in registration order at both phases. For a
chain of two middlewares the pre-invoke chain is the first hook bound into the
second, the post-invoke chain is the first hook bound into the second in the
same forward order, and a full capability invocation over the chain runs the
first pre-hook, the second pre-hook, the plugin call, the first post-hook and
the second post-hook, with the non-fatal fallbacks of `invoke_capability`. -/
theorem middleware_forward_order (A B : Middleware)
    (pc : Invocation → Except String InvocationResponse)
    (inv : Invocation) (resp : InvocationResponse) :
    run_capability_pre_invoke inv [A, B]
      = Except.bind (A.capability_pre_invoke inv) B.capability_pre_invoke
  ∧ run_capability_post_invoke resp [A, B]
      = Except.bind (A.capability_post_invoke resp) B.capability_post_invoke
  ∧ invoke_capability [A, B] pc inv
      = (match Except.bind (A.capability_pre_invoke inv) B.capability_pre_invoke with
        | Except.ok i =>
          (match Except.bind (A.capability_post_invoke (pluginResponse pc i))
              B.capability_post_invoke with
          | Except.ok r' => Except.ok r'
          | Except.error _ => Except.ok (pluginResponse pc i))
        | Except.error _ =>
          (match Except.bind (A.capability_post_invoke (pluginResponse pc inv))
              B.capability_post_invoke with
          | Except.ok r' => Except.ok r'
          | Except.error _ => Except.ok (pluginResponse pc inv))) := by
  refine ⟨run_capability_pre_invoke_pair A B inv,
    run_capability_post_invoke_pair A B resp, ?_⟩
  have hpre := run_capability_pre_invoke_pair A B inv
  cases hAB : Except.bind (A.capability_pre_invoke inv) B.capability_pre_invoke with
  | ok i =>
    have hcpr : capability_pre_result [A, B] inv = i := by
      simp [capability_pre_result, hpre, hAB]
    unfold invoke_capability
    rw [hcpr, run_capability_post_invoke_pair]
  | error e =>
    have hcpr : capability_pre_result [A, B] inv = inv := by
      simp [capability_pre_result, hpre, hAB]
    unfold invoke_capability
    rw [hcpr, run_capability_post_invoke_pair]

/-- C5: the dispatch contract of `WasccNativeDispatcher::dispatch`. The call
sends the invocation built from the own capability id, the actor target, the
operation and the payload; a send failure becomes a channel-send error; on a
successful send, a receive failure becomes a channel-receive error, a received
response carrying an error becomes an invocation error containing that string,
and otherwise the response payload is returned. -/
theorem dispatcher_dispatch_contract (d : WasccNativeDispatcher)
    (actor op : String) (msg : List Nat) :
    (∀ e, d.invoc_s (Invocation.new d.capid (InvocationTarget.actor actor) op msg)
        = Except.error e →
      d.dispatch actor op msg
        = Except.error { code := TeaErrorCode.channelSendError, detail := some e })
  ∧ (d.invoc_s (Invocation.new d.capid (InvocationTarget.actor actor) op msg)
        = Except.ok () →
      (∀ e, d.resp_r = Except.error e →
        d.dispatch actor op msg
          = Except.error { code := TeaErrorCode.channelReceiveError, detail := some e })
      ∧ (∀ r s, d.resp_r = Except.ok r → r.error = some s →
        d.dispatch actor op msg
          = Except.error { code := TeaErrorCode.invocationError, detail := some s })
      ∧ (∀ r, d.resp_r = Except.ok r → r.error = none →
        d.dispatch actor op msg = Except.ok r.msg)) := by
  refine ⟨?_, ?_⟩
  · intro e h
    simp [WasccNativeDispatcher.dispatch, h]
  · intro hs
    refine ⟨?_, ?_, ?_⟩
    · intro e h
      simp [WasccNativeDispatcher.dispatch, hs, h]
    · intro r s hr he
      simp [WasccNativeDispatcher.dispatch, hs, hr, he]
    · intro r hr he
      simp [WasccNativeDispatcher.dispatch, hs, hr, he]

/-- C5 witness: a dispatcher whose send succeeds and whose receive yields an
error-free response returns the response payload. -/
theorem dispatcher_dispatch_contract_witness :
    dispW.invoc_s (Invocation.new dispW.capid (InvocationTarget.actor "a1") "get" [9])
      = Except.ok ()
  ∧ dispW.resp_r = Except.ok respOkW
  ∧ respOkW.error = none
  ∧ WasccNativeDispatcher.dispatch dispW "a1" "get" [9] = Except.ok respOkW.msg := by
  refine ⟨rfl, rfl, rfl, ?_⟩
  exact ((dispatcher_dispatch_contract dispW "a1" "get" [9]).2 rfl).2.2 respOkW rfl rfl

/-- C6: at most one registration per `(binding, capability id)` pair. When the
route already exists, `add_native_capability` fails with a duplicate error
whose message contains both the capability id and the binding name, and the
host state is left untouched; and whenever it succeeds, the route exists
afterwards, so a second registration of the same pair must fail. -/
theorem add_native_capability_duplicate (host : NativeHost)
    (cap : NativeCapability) :
    (host.router.route_exists cap.binding_name (NativeCapability.id cap) = true →
      ∃ msg,
        NativeHost.add_native_capability host cap
          = (Except.error { code := TeaErrorCode.capabilityProviderError,
                            detail := some msg }, host)
        ∧ (∃ p q, msg = p ++ (NativeCapability.id cap ++ q))
        ∧ (∃ p q, msg = p ++ (cap.binding_name ++ q)))
  ∧ (∀ host2, NativeHost.add_native_capability host cap = (Except.ok (), host2) →
      host2.router.route_exists cap.binding_name (NativeCapability.id cap) = true) := by
  constructor
  · intro h
    refine ⟨"Capability provider " ++ NativeCapability.id cap ++
      " cannot be bound to the same name (" ++ cap.binding_name ++
      ") twice, loading failed.", ?_, ?_, ?_⟩
    · simp [NativeHost.add_native_capability, h]
    · exact ⟨"Capability provider ",
        " cannot be bound to the same name (" ++ cap.binding_name ++
          ") twice, loading failed.",
        by simp [String.append_assoc]⟩
    · exact ⟨"Capability provider " ++ NativeCapability.id cap ++
        " cannot be bound to the same name (",
        ") twice, loading failed.",
        by simp [String.append_assoc]⟩
  · intro host2 h
    by_cases hr : host.router.route_exists cap.binding_name (NativeCapability.id cap)
    · simp [NativeHost.add_native_capability, hr] at h
    · rw [NativeHost.add_native_capability] at h
      simp [hr] at h
      rw [NativeHost.spawn_capability_provider_and_listen] at h
      cases hp : PluginManager.add_plugin
          ({ host with caps :=
            ((cap.binding_name, cap.descriptor.id), cap.descriptor) :: host.caps }).plugins
          cap with
      | error e => rw [hp] at h; simp at h
      | ok pm =>
        rw [hp] at h
        simp at h
        rw [← h]
        simp [Router.route_exists, Router.add_route]

/-- C6 witness: registering the echo capability on a host that already routes
it fails with the duplicate message and leaves the host unchanged. -/
theorem add_native_capability_duplicate_witness :
    hostDup.router.route_exists echoCap.binding_name (NativeCapability.id echoCap) = true
  ∧ ∃ msg,
      NativeHost.add_native_capability hostDup echoCap
        = (Except.error { code := TeaErrorCode.capabilityProviderError,
                          detail := some msg }, hostDup)
      ∧ (∃ p q, msg = p ++ (NativeCapability.id echoCap ++ q))
      ∧ (∃ p q, msg = p ++ (echoCap.binding_name ++ q)) := by
  exact ⟨rfl, (add_native_capability_duplicate hostDup echoCap).1 rfl⟩

/-- C7: `invoke_actor` runs the actor pre-invoke chain with fallback to the
untransformed invocation, calls the guest on the resulting operation and
payload, wraps a successful guest call as a success response and a guest error
as an error response (so a guest failure always becomes a response error and
`invoke_actor` always returns `ok`, never an error and never a panic), and
finally runs the actor post-invoke chain over that response, returning its
result, or the untransformed response when the post chain fails. -/
theorem invoke_actor_pipeline (mws : List Middleware) (inv : Invocation)
    (g : String → List Nat → Except String (List Nat)) :
    (∀ e, run_actor_pre_invoke inv mws = Except.error e →
      actor_pre_result mws inv = inv)
  ∧ (∀ v, g (actor_pre_result mws inv).operation (actor_pre_result mws inv).msg
        = Except.ok v →
      actor_guest_response mws inv g
        = InvocationResponse.success (actor_pre_result mws inv) v)
  ∧ (∀ e, g (actor_pre_result mws inv).operation (actor_pre_result mws inv).msg
        = Except.error e →
      actor_guest_response mws inv g
        = InvocationResponse.mkError (actor_pre_result mws inv) (wapcErrorString e)
      ∧ (actor_guest_response mws inv g).error = some (wapcErrorString e))
  ∧ (∃ r, invoke_actor mws inv g = Except.ok r)
  ∧ (∀ r', run_actor_post_invoke (actor_guest_response mws inv g) mws
        = Except.ok r' →
      invoke_actor mws inv g = Except.ok r')
  ∧ (∀ e, run_actor_post_invoke (actor_guest_response mws inv g) mws
        = Except.error e →
      invoke_actor mws inv g = Except.ok (actor_guest_response mws inv g)) := by
  refine ⟨?_, ?_, ?_, ?_, ?_, ?_⟩
  · intro e h
    simp [actor_pre_result, h]
  · intro v h
    unfold actor_guest_response
    rw [h]
  · intro e h
    constructor
    · unfold actor_guest_response
      rw [h]
    · unfold actor_guest_response
      rw [h]
      rfl
  · cases h : run_actor_post_invoke (actor_guest_response mws inv g) mws with
    | ok r => exact ⟨r, by unfold invoke_actor; rw [h]⟩
    | error e => exact ⟨_, by unfold invoke_actor; rw [h]⟩
  · intro r' h
    unfold invoke_actor
    rw [h]
  · intro e h
    unfold invoke_actor
    rw [h]

/-- C7 witness: with an always-failing middleware chain and a failing guest,
the guest error becomes a response error and the invocation still completes
with that untransformed response. -/
theorem invoke_actor_pipeline_witness :
    gFail (actor_pre_result [failMW] invCap).operation
        (actor_pre_result [failMW] invCap).msg = Except.error "guest blew up"
  ∧ run_actor_post_invoke (actor_guest_response [failMW] invCap gFail) [failMW]
      = Except.error "boom"
  ∧ actor_guest_response [failMW] invCap gFail
      = InvocationResponse.mkError (actor_pre_result [failMW] invCap)
          (wapcErrorString "guest blew up")
  ∧ invoke_actor [failMW] invCap gFail
      = Except.ok (actor_guest_response [failMW] invCap gFail) := by
  have h := invoke_actor_pipeline [failMW] invCap gFail
  exact ⟨rfl, rfl, (h.2.2.1 "guest blew up" rfl).1, h.2.2.2.2.2 "boom" rfl⟩

/-- C8: `NativeHost::new` starts from a state whose router, plugin manager,
middleware chain and caps map are all empty, its `ensure_extras` call (which
the source unwraps) succeeds, and immediately after `new` returns, the router
has a route for the default binding of the extras capability. -/
theorem native_host_new_has_extras :
    NativeHost.initialState.router.routes = []
  ∧ NativeHost.initialState.plugins.plugins = []
  ∧ NativeHost.initialState.middlewares = []
  ∧ NativeHost.initialState.caps = []
  ∧ (NativeHost.ensure_extras NativeHost.initialState).1 = Except.ok ()
  ∧ (NativeHost.new.router.get_route "default" "wascc:extras").isSome = true := by
  exact ⟨rfl, rfl, rfl, rfl, rfl, rfl⟩

/-- C9: a provider-originated dispatch served by the native worker loop can
never succeed: `dispatch` only builds actor-target invocations, the worker
answers every actor-target invocation with the fixed error response, and
`dispatch` turns a response carrying an error into an invocation error, so
the round trip always returns exactly that error. -/
theorem dispatch_via_worker_always_errors (mws : List Middleware)
    (pc : Invocation → Except String InvocationResponse)
    (capid actor op : String) (msg : List Nat) :
    dispatch_via_worker mws pc capid actor op msg
      = Except.error { code := TeaErrorCode.invocationError,
                       detail := some "invocation target of native host can't be actor" } := by
  rfl

/-- C10: `add_native_capability` is not atomic on a late failure. When the
duplicate-route check passes but spawning the provider fails, the call returns
the spawn error while the state keeps the caps entry inserted before the
spawn, with the rest of the host untouched: nothing is rolled back. -/
theorem add_native_capability_not_atomic (host : NativeHost)
    (cap : NativeCapability) (e : TeaError)
    (hroute : host.router.route_exists cap.binding_name (NativeCapability.id cap)
      = false)
    (hspawn : (NativeHost.spawn_capability_provider_and_listen
        { host with caps :=
            ((cap.binding_name, cap.descriptor.id), cap.descriptor) :: host.caps }
        cap).1 = Except.error e) :
    (NativeHost.add_native_capability host cap).1 = Except.error e
  ∧ (NativeHost.add_native_capability host cap).2
      = { host with caps :=
          ((cap.binding_name, cap.descriptor.id), cap.descriptor) :: host.caps } := by
  have hadd : NativeHost.add_native_capability host cap
      = NativeHost.spawn_capability_provider_and_listen
          { host with caps :=
              ((cap.binding_name, cap.descriptor.id), cap.descriptor) :: host.caps }
          cap := by
    unfold NativeHost.add_native_capability
    rw [hroute]
    simp
  rw [hadd]
  rw [NativeHost.spawn_capability_provider_and_listen] at hspawn ⊢
  cases hp : PluginManager.add_plugin
      ({ host with caps :=
          ((cap.binding_name, cap.descriptor.id), cap.descriptor) :: host.caps }).plugins
      cap with
  | error e2 =>
    rw [hp] at hspawn
    simp at hspawn
    subst hspawn
    exact ⟨rfl, rfl⟩
  | ok pm =>
    rw [hp] at hspawn
    simp at hspawn

/-- C10 witness: on a host whose plugin manager already owns the echo key, the
duplicate-route check passes, the spawn fails with the duplicate-plugin error,
and the failing `add_native_capability` leaves the echo descriptor inserted in
the caps map. -/
theorem add_native_capability_not_atomic_witness :
    hostPluginBusy.router.route_exists echoCap.binding_name
      (NativeCapability.id echoCap) = false
  ∧ (NativeHost.spawn_capability_provider_and_listen
      { hostPluginBusy with caps :=
          ((echoCap.binding_name, echoCap.descriptor.id), echoCap.descriptor)
            :: hostPluginBusy.caps }
      echoCap).1 = Except.error dupErr
  ∧ (NativeHost.add_native_capability hostPluginBusy echoCap).1
      = Except.error dupErr
  ∧ (NativeHost.add_native_capability hostPluginBusy echoCap).2
      = { hostPluginBusy with caps :=
          ((echoCap.binding_name, echoCap.descriptor.id), echoCap.descriptor)
            :: hostPluginBusy.caps } := by
  have h := add_native_capability_not_atomic hostPluginBusy echoCap dupErr rfl rfl
  exact ⟨rfl, rfl, h.1, h.2⟩
